import Mathlib

/-!
# minecraft-panel: a shallow embedding of `main.go`

The panel is one Go file: a configuration read from the environment, a basic-auth
gate, five HTTP handlers and four calls to the container daemon.  Every function of
`main.go` is translated below under its own name.  The process-wide variables `cfg`
and `dockerCli` become explicit parameters.  What a handler can do to its surroundings
(write to the `http.ResponseWriter`, call the daemon, print a log line, panic) is
recorded in a `World` value that is passed through.

The parts of the Go libraries the handlers rely on (`net/http`, `html/template`,
`os.LookupEnv`, `godotenv.Load`, the docker client) are modelled next to the code that
uses them, each restricted to what this program exercises.  Go strings are Lean
strings; long texts (templates, response bodies) are lists of characters.
-/

namespace MinecraftPanel

/-! ## Configuration (`Config`, `getEnv`, `loadConfig`) -/

/-- The `Config` struct of `main.go`. -/
structure Config where
  ContainerName : String
  Port : String
  Title : String
  AuthUser : String
  AuthPass : String
  deriving DecidableEq

/-- The process environment: the variables that are set, each with its value. -/
abbrev Environ := List (String × String)

/-- Go `os.LookupEnv`: the value of a variable that is set (`ok = true`), nothing for a
variable that is not. A variable set to the empty string is set. -/
def LookupEnv (env : Environ) (key : String) : Option String :=
  env.lookup key

/-- Go `godotenv.Load()`: every entry of the `.env` file (`envMap`, empty when there is
no such file) is put into the environment unless the variable is already set there. -/
def godotenvLoad (envMap : List (String × String)) (env : Environ) : Environ :=
  env ++ envMap.filter (fun kv => (LookupEnv env kv.1).isNone)

/-- The function `getEnv` of `main.go`. -/
def getEnv (env : Environ) (key fallback : String) : String :=
  match LookupEnv env key with
  | some value => value
  | none => fallback

/-- The function `loadConfig` of `main.go`; the result is the value assigned to `cfg`. -/
def loadConfig (envMap : List (String × String)) (env : Environ) : Config :=
  let env := godotenvLoad envMap env
  { ContainerName := getEnv env "CONTAINER_NAME" "mc-server"
    Port := getEnv env "PORT" "8080"
    Title := getEnv env "APP_TITLE" "MINECRAFT SERVER"
    AuthUser := getEnv env "AUTH_USER" ""
    AuthPass := getEnv env "AUTH_PASS" "" }

/-! ## The container daemon (`dockerCli`) -/

/-- The part of the docker `ContainerState` that is read: `State.Running`. -/
structure ContainerState where
  Running : Bool
  deriving DecidableEq

/-- The docker `ContainerJSONBase`: `State` is a pointer, `none` is `nil`. -/
structure ContainerJSONBase where
  State : Option ContainerState
  deriving DecidableEq

/-- The docker inspect response: it embeds a pointer to `ContainerJSONBase`, through
which `inspect.State` is reached; `none` is `nil`. A reply without a state object
decodes to a response with one of the two pointers `nil`. -/
structure ContainerJSON where
  ContainerJSONBase : Option ContainerJSONBase
  deriving DecidableEq

/-- A call issued to the daemon, with the container name it was issued for. -/
inductive DaemonCall where
  | inspect (name : String)
  | start (name : String)
  | stop (name : String)
  | restart (name : String)
  deriving DecidableEq

/-- The daemon behind the client: what it answers to a call, given the calls issued
before it and the container name. A control call answers with a Go `error` (its
message; `none` is `nil`), the inspection with a response or an error. The answer may
depend on the calls before it, so a second call need not be answered as the first. -/
structure Daemon where
  ContainerInspect : List DaemonCall → String → Except String ContainerJSON
  ContainerStart : List DaemonCall → String → Option String
  ContainerStop : List DaemonCall → String → Option String
  ContainerRestart : List DaemonCall → String → Option String

/-! ## `net/http`: headers, response writer, requests -/

/-- Go `http.Header`: canonical key to values. -/
abbrev Header := List (String × List String)

/-- Upper-case an ASCII letter. -/
def asciiUpper (c : Char) : Char :=
  if 97 ≤ c.toNat ∧ c.toNat ≤ 122 then Char.ofNat (c.toNat - 32) else c

/-- Lower-case an ASCII letter. -/
def asciiLower (c : Char) : Char :=
  if 65 ≤ c.toNat ∧ c.toNat ≤ 90 then Char.ofNat (c.toNat + 32) else c

/-- The loop of Go `textproto.CanonicalMIMEHeaderKey`: the first letter and every
letter after a hyphen in upper case, the others in lower case. -/
def canonicalLoop : Bool → List Char → List Char
  | _, [] => []
  | upper, c :: cs =>
    (if upper then asciiUpper c else asciiLower c) :: canonicalLoop (c = '-') cs

/-- Go `textproto.CanonicalMIMEHeaderKey` on keys made of letters, digits and hyphens
(the only keys this program uses). -/
def CanonicalMIMEHeaderKey (key : String) : String :=
  String.mk (canonicalLoop true key.data)

/-- Go `Header.Del`. -/
def Header.Del (h : Header) (key : String) : Header :=
  h.filter (fun kv => kv.1 != CanonicalMIMEHeaderKey key)

/-- Go `Header.Set`: the key now has exactly this one value. -/
def Header.Set (h : Header) (key value : String) : Header :=
  (CanonicalMIMEHeaderKey key, [value]) :: Header.Del h key

/-- Go `Header.Get`: the first value of the key, the empty string when there is none. -/
def Header.Get (h : Header) (key : String) : String :=
  match h.lookup (CanonicalMIMEHeaderKey key) with
  | some (v :: _) => v
  | _ => ""

/-- What a handler has done to its `http.ResponseWriter`: the header map, whether the
status line is written and with which code, and the body bytes written so far. -/
structure ResponseWriter where
  header : Header
  wroteHeader : Bool
  status : Nat
  body : List Char
  deriving DecidableEq

/-- The response writer the server hands to a handler. -/
def ResponseWriter.fresh : ResponseWriter :=
  { header := [], wroteHeader := false, status := 0, body := [] }

/-- Go `ResponseWriter.WriteHeader`: the first call fixes the status, later calls are
ignored. -/
def ResponseWriter.WriteHeader (rw : ResponseWriter) (code : Nat) : ResponseWriter :=
  if rw.wroteHeader then rw else { rw with wroteHeader := true, status := code }

/-- Go `ResponseWriter.Write`: writes the status line with 200 when none is written
yet, then appends the data to the body. -/
def ResponseWriter.Write (rw : ResponseWriter) (data : List Char) : ResponseWriter :=
  let rw := rw.WriteHeader 200
  { rw with body := rw.body ++ data }

/-- The status code the client receives: the one written, or 200 when the handler
returned without writing any. -/
def ResponseWriter.Code (rw : ResponseWriter) : Nat :=
  if rw.wroteHeader then rw.status else 200

/-- The part of a Go `*http.Request` that is read: `r.Method`, `r.URL.Path`,
`r.RequestURI` and the three results of `r.BasicAuth()` (username, password, ok). -/
structure Request where
  Method : String
  Path : String
  RequestURI : String
  BasicAuth : String × String × Bool
  deriving DecidableEq

/-- Everything a handler can change: its response writer, the calls issued to the
daemon, the lines printed through `log`, and the run-time panic it ended in, if any
(the server then aborts the connection and the client receives no response). -/
structure World where
  resp : ResponseWriter
  calls : List DaemonCall
  log : List String
  panic : Option String
  deriving DecidableEq

/-- Go `http.HandlerFunc`: `func(w http.ResponseWriter, r *http.Request)`. -/
abbrev HandlerFunc := World → Request → World

/-- Go `http.Error`: drops `Content-Length`, sets the two plain-text headers, writes
the status and prints the message followed by a newline. -/
def httpError (w : World) (error : String) (code : Nat) : World :=
  let h := Header.Del w.resp.header "Content-Length"
  let h := Header.Set h "Content-Type" "text/plain; charset=utf-8"
  let h := Header.Set h "X-Content-Type-Options" "nosniff"
  let rw := ({ w.resp with header := h }).WriteHeader code
  { w with resp := rw.Write (error.data ++ [Char.ofNat 10]) }

/-- Go `log.Println` and `log.Printf`: one more line in the log. -/
def logPrintln (w : World) (line : String) : World :=
  { w with log := w.log ++ [line] }

/-- The client call `dockerCli.ContainerInspect(ctx, name)`: the call reaches the
daemon, which answers it. -/
def dockerCli.ContainerInspect (d : Daemon) (name : String) (w : World) :
    Except String ContainerJSON × World :=
  (d.ContainerInspect w.calls name, { w with calls := w.calls ++ [DaemonCall.inspect name] })

/-- The client call `dockerCli.ContainerStart(ctx, name, opts)`. -/
def dockerCli.ContainerStart (d : Daemon) (name : String) (w : World) : Option String × World :=
  (d.ContainerStart w.calls name, { w with calls := w.calls ++ [DaemonCall.start name] })

/-- The client call `dockerCli.ContainerStop(ctx, name, opts)`. -/
def dockerCli.ContainerStop (d : Daemon) (name : String) (w : World) : Option String × World :=
  (d.ContainerStop w.calls name, { w with calls := w.calls ++ [DaemonCall.stop name] })

/-- The client call `dockerCli.ContainerRestart(ctx, name, opts)`. -/
def dockerCli.ContainerRestart (d : Daemon) (name : String) (w : World) : Option String × World :=
  (d.ContainerRestart w.calls name, { w with calls := w.calls ++ [DaemonCall.restart name] })

/-! ## `html/template`: the fragment the two templates use -/

/-- An action between double braces: a field, `if` on a field, `else`, `end`. -/
inductive Action where
  | field (name : String)
  | ifField (name : String)
  | elseBranch
  | endBlock
  deriving DecidableEq

/-- A node of a parsed template: literal text or an action. -/
inductive Node where
  | text (s : List Char)
  | act (a : Action)
  deriving DecidableEq

/-- A lexed item: text outside the delimiters, or the raw text between them. -/
inductive Item where
  | text (s : List Char)
  | action (s : List Char)
  deriving DecidableEq

/-- The lexer of `text/template`: text runs up to the next left delimiter, an action up
to the next right delimiter. The flag says whether an action is open, `acc` is the
current item in reverse. -/
def lex : Bool → List Char → List Char → List Item
  | false, acc, '\x7b' :: '\x7b' :: rest => Item.text acc.reverse :: lex true [] rest
  | false, acc, c :: rest => lex false (c :: acc) rest
  | false, acc, [] => [Item.text acc.reverse]
  | true, acc, '\x7d' :: '\x7d' :: rest => Item.action acc.reverse :: lex false [] rest
  | true, acc, c :: rest => lex true (c :: acc) rest
  | true, acc, [] => [Item.action acc.reverse]

/-- The words of an action, separated by blanks. -/
def splitWords : List Char → List Char → List String
  | acc, [] => if acc.isEmpty then [] else [String.mk acc.reverse]
  | acc, c :: cs =>
    if c = ' ' ∨ c = '\t' ∨ c = '\r' ∨ c = '\n' then
      (if acc.isEmpty then splitWords [] cs else String.mk acc.reverse :: splitWords [] cs)
    else splitWords (c :: acc) cs

/-- The name after the dot of a field word such as `.Title`. -/
def fieldName (word : String) : Option String :=
  match word.data with
  | '.' :: name => if name.isEmpty then none else some (String.mk name)
  | _ => none

/-- Reads one action from its words. -/
def parseAction : List String → Option Action
  | [w] =>
    if w = "else" then some Action.elseBranch
    else if w = "end" then some Action.endBlock
    else (fieldName w).map Action.field
  | [k, w] => if k = "if" then (fieldName w).map Action.ifField else none
  | _ => none

/-- Turns lexed items into nodes; `depth` counts the open `if` blocks. Fails on an
unknown action, on `else` or `end` outside a block and on a block left open. Empty
text makes no node. -/
def parseItems : Nat → List Item → Option (List Node)
  | depth, [] => if depth = 0 then some [] else none
  | depth, Item.text s :: rest =>
    (parseItems depth rest).map (fun ns => if s.isEmpty then ns else Node.text s :: ns)
  | depth, Item.action s :: rest =>
    match parseAction (splitWords [] s) with
    | none => none
    | some (Action.field f) => (parseItems depth rest).map (Node.act (Action.field f) :: ·)
    | some (Action.ifField f) =>
      (parseItems (depth + 1) rest).map (Node.act (Action.ifField f) :: ·)
    | some Action.elseBranch =>
      if depth = 0 then none else (parseItems depth rest).map (Node.act Action.elseBranch :: ·)
    | some Action.endBlock =>
      match depth with
      | 0 => none
      | k + 1 => (parseItems k rest).map (Node.act Action.endBlock :: ·)

/-- Whether the lexer left an action without its right delimiter. -/
def unclosedAction : List Item → Bool
  | [] => false
  | [Item.action _] => true
  | _ :: rest => unclosedAction rest

/-- Go `template.New(name).Parse(text)`: the nodes, or nothing for the error. -/
def Parse (text : List Char) : Option (List Node) :=
  let items := lex false [] text
  if unclosedAction items then none else parseItems 0 items

/-- The value of a template field. -/
inductive Value where
  | str (s : String)
  | bool (b : Bool)
  deriving DecidableEq

/-- The truth of a value in `if`: a boolean itself, a string when it is not empty. -/
def Value.truth : Value → Bool
  | Value.str s => !s.data.isEmpty
  | Value.bool b => b

/-- The printed form of a value. -/
def Value.print : Value → List Char
  | Value.str s => s.data
  | Value.bool true => "true".data
  | Value.bool false => "false".data

/-- Go `htmlReplacementTable` of `html/template`: the seven characters that are
replaced, NUL, the double quote, the ampersand, the apostrophe, plus, less-than and
greater-than, each with its replacement. -/
def htmlReplacementTable (c : Char) : Option String :=
  if c = Char.ofNat 0 then some "\uFFFD"
  else if c = Char.ofNat 34 then some "&#34;"
  else if c = '&' then some "&amp;"
  else if c = Char.ofNat 39 then some "&#39;"
  else if c = '+' then some "&#43;"
  else if c = '<' then some "&lt;"
  else if c = '>' then some "&gt;"
  else none

/-- Go `htmlReplacer` with `htmlReplacementTable`: what the escapers of `html/template`
apply to a plain string printed in element text or in a title. -/
def htmlEscaper : List Char → List Char
  | [] => []
  | c :: cs =>
    (match htmlReplacementTable c with
     | some r => r.data
     | none => [c]) ++ htmlEscaper cs

/-- Where the text rewriting of `html/template` stands: in markup, in the start tag of
a style element, in style sheet text, in a quoted string of it, in one of its
comments, or on the second character of a comment delimiter. -/
inductive TextState where
  | markup
  | styleTag
  | css
  | cssSqStr
  | cssDqStr
  | cssBlockCmtOpen
  | cssBlockCmt
  | cssBlockCmtClose
  | cssLineCmtOpen
  | cssLineCmt
  deriving DecidableEq

/-- Whether the state lies inside a style element. -/
def TextState.inStyle : TextState → Bool
  | TextState.markup => false
  | TextState.styleTag => false
  | _ => true

/-- Go `escapeText` of `html/template`, for the one rewriting these templates meet: in
a style element a block comment becomes one space and a line comment is dropped up to
its line end; all other text is kept. -/
def escapeText : TextState → List Char → List Char
  | _, [] => []
  | st, c :: rest =>
    let st := if st.inStyle && "</style".data.isPrefixOf (c :: rest) then TextState.markup else st
    match st with
    | TextState.markup =>
      c :: escapeText (if "<style".data.isPrefixOf (c :: rest) then TextState.styleTag
        else TextState.markup) rest
    | TextState.styleTag =>
      c :: escapeText (if c = '>' then TextState.css else TextState.styleTag) rest
    | TextState.css =>
      if c = '/' ∧ rest.head? = some '*' then ' ' :: escapeText TextState.cssBlockCmtOpen rest
      else if c = '/' ∧ rest.head? = some '/' then escapeText TextState.cssLineCmtOpen rest
      else c :: escapeText (if c = Char.ofNat 39 then TextState.cssSqStr
        else if c = Char.ofNat 34 then TextState.cssDqStr else TextState.css) rest
    | TextState.cssSqStr =>
      c :: escapeText (if c = Char.ofNat 39 then TextState.css else TextState.cssSqStr) rest
    | TextState.cssDqStr =>
      c :: escapeText (if c = Char.ofNat 34 then TextState.css else TextState.cssDqStr) rest
    | TextState.cssBlockCmtOpen => escapeText TextState.cssBlockCmt rest
    | TextState.cssBlockCmt =>
      escapeText (if c = '*' ∧ rest.head? = some '/' then TextState.cssBlockCmtClose
        else TextState.cssBlockCmt) rest
    | TextState.cssBlockCmtClose => escapeText TextState.css rest
    | TextState.cssLineCmtOpen => escapeText TextState.cssLineCmt rest
    | TextState.cssLineCmt =>
      if c = '\n' then c :: escapeText TextState.css rest
      else escapeText TextState.cssLineCmt rest

/-- Whether every open block is on its active branch. -/
def active (stack : List Bool) : Bool :=
  stack.all id

/-- Execution of the nodes against the data: the list of pieces handed to the writer,
in order. `stack` holds, for every open `if`, whether its current branch is the one
taken. A field that the data lacks is an execution error: nothing more is written.
Each text node is rewritten from the markup state, every action of the two templates
standing in markup outside a style element. -/
def exec (data : String → Option Value) : List Bool → List Node → List (List Char)
  | _, [] => []
  | stack, Node.text s :: rest =>
    if active stack then escapeText TextState.markup s :: exec data stack rest
    else exec data stack rest
  | stack, Node.act (Action.field f) :: rest =>
    if active stack then
      match data f with
      | some v => htmlEscaper v.print :: exec data stack rest
      | none => []
    else exec data stack rest
  | stack, Node.act (Action.ifField f) :: rest =>
    if active stack then
      match data f with
      | some v => exec data (v.truth :: stack) rest
      | none => []
    else exec data (false :: stack) rest
  | b :: stack, Node.act Action.elseBranch :: rest => exec data ((!b) :: stack) rest
  | [], Node.act Action.elseBranch :: _ => []
  | _ :: stack, Node.act Action.endBlock :: rest => exec data stack rest
  | [], Node.act Action.endBlock :: _ => []

/-- Go `tmpl.Execute(w, data)`: every piece is written to the response writer. -/
def Execute (tmpl : List Node) (data : String → Option Value) (w : World) : World :=
  { w with resp := (exec data [] tmpl).foldl ResponseWriter.Write w.resp }

/-- The lines of a Go raw string literal, joined by newlines. -/
def joinLines : List String → List Char
  | [] => []
  | [l] => l.data
  | l :: ls => l.data ++ '\n' :: joinLines ls

/-- The constant `statusTemplate` of `main.go` (lines 145 to 188), one literal per
source line. -/
def statusTemplate : List Char := joinLines [
  "",
  "\x7b\x7b if .Running \x7d\x7d",
  "    <div class=\"w-full flex flex-col items-center animate-fade-in w-full\">",
  "        <div class=\"flex items-center gap-3 mb-8 bg-black/20 px-6 py-2 rounded border border-green-900/50\">",
  "            <div class=\"flex gap-1 items-end h-8\">",
  "                <div class=\"w-2 h-3 bg-green-500\"></div>",
  "                <div class=\"w-2 h-5 bg-green-500\"></div>",
  "                <div class=\"w-2 h-7 bg-green-500\"></div>",
  "                <div class=\"w-2 h-9 bg-green-500 animate-pulse\"></div>",
  "            </div>",
  "            <span class=\"text-4xl text-green-400 drop-shadow-md tracking-widest\">ONLINE</span>",
  "        </div>",
  "        ",
  "        <div class=\"w-full flex flex-col gap-4\">",
  "            <button hx-post=\"/stop\" hx-swap=\"none\" ",
  "                class=\"mc-btn w-full py-3 text-3xl active:text-red-300\">",
  "                STOP SERVER",
  "            </button>",
  "            ",
  "            <button hx-post=\"/restart\" hx-swap=\"none\" ",
  "                class=\"mc-btn w-full py-3 text-3xl text-gray-400\">",
  "                RESTART SYSTEM",
  "            </button>",
  "        </div>",
  "    </div>",
  "\x7b\x7b else \x7d\x7d",
  "    <div class=\"w-full flex flex-col items-center animate-fade-in w-full\">",
  "        <div class=\"flex items-center gap-3 mb-8 bg-black/20 px-6 py-2 rounded border border-red-900/50\">",
  "            <div class=\"flex gap-1 items-end h-8 opacity-50\">",
  "                <div class=\"w-2 h-3 bg-red-600 animate-pulse\"></div>",
  "                <div class=\"w-2 h-5 bg-gray-800\"></div>",
  "                <div class=\"w-2 h-7 bg-gray-800\"></div>",
  "                <div class=\"w-2 h-9 bg-gray-800\"></div>",
  "            </div>",
  "            <span class=\"text-4xl text-red-500 drop-shadow-md tracking-widest\">OFFLINE</span>",
  "        </div>",
  "        ",
  "        <button hx-post=\"/start\" hx-swap=\"none\" ",
  "            class=\"mc-btn w-full py-6 text-4xl text-white animate-pulse\">",
  "            INITIALIZE SERVER",
  "        </button>",
  "    </div>",
  "\x7b\x7b end \x7d\x7d",
  ""]

/-- The value `struct{ Running bool }{Running: running}` as template data. -/
def statusData (running : Bool) : String → Option Value :=
  fun name => if name = "Running" then some (Value.bool running) else none

/-! ## The functions of `main.go` -/

/-- The function `basicAuth` of `main.go`. -/
def basicAuth (cfg : Config) (next : HandlerFunc) : HandlerFunc :=
  fun w r =>
    if cfg.AuthUser == "" || cfg.AuthPass == "" then
      next w r
    else
      let (user, pass, ok) := r.BasicAuth
      if !ok || user != cfg.AuthUser || pass != cfg.AuthPass then
        let w := { w with resp := { w.resp with
          header := Header.Set w.resp.header "WWW-Authenticate" "Basic realm=\"Restricted\"" } }
        httpError w "Unauthorized" 401
      else
        next w r

/-- The message of the run-time panic on a `nil` pointer. -/
def nilDereference : String :=
  "runtime error: invalid memory address or nil pointer dereference"

/-- The function `isContainerRunning` of `main.go`: the boolean it returns, or nothing
when `inspect.State.Running` dereferences a `nil` pointer and the function panics
instead of returning; and the world after the inspect call. -/
def isContainerRunning (cfg : Config) (d : Daemon) (w : World) : Option Bool × World :=
  let (result, w) := dockerCli.ContainerInspect d cfg.ContainerName w
  match result with
  | Except.error _ => (some false, w)
  | Except.ok inspect =>
    match inspect.ContainerJSONBase with
    | none => (none, w)
    | some base =>
      match base.State with
      | none => (none, w)
      | some state => (some state.Running, w)

/-- The function `handleStatus` of `main.go`. A panic of `isContainerRunning` ends the
handler. The parse error is discarded in the source, where a failed parse would leave
`tmpl` `nil` and `Execute` would panic on it; the constant does parse, so that branch
is never taken. -/
def handleStatus (cfg : Config) (d : Daemon) : HandlerFunc :=
  fun w _ =>
    let (running, w) := isContainerRunning cfg d w
    match running with
    | none => { w with panic := some nilDereference }
    | some running =>
      match Parse statusTemplate with
      | some tmpl => Execute tmpl (statusData running) w
      | none => { w with panic := some nilDereference }

/-- The function `handleStart` of `main.go`. -/
def handleStart (cfg : Config) (d : Daemon) : HandlerFunc :=
  fun w r =>
    if r.Method != "POST" then w
    else
      let w := logPrintln w "Command: START"
      let (err, w) := dockerCli.ContainerStart d cfg.ContainerName w
      match err with
      | some err => httpError (logPrintln w ("Start error: " ++ err)) err 500
      | none => w

/-- The function `handleStop` of `main.go`. -/
def handleStop (cfg : Config) (d : Daemon) : HandlerFunc :=
  fun w r =>
    if r.Method != "POST" then w
    else
      let w := logPrintln w "Command: STOP"
      let (err, w) := dockerCli.ContainerStop d cfg.ContainerName w
      match err with
      | some err => httpError (logPrintln w ("Stop error: " ++ err)) err 500
      | none => w

/-- The function `handleRestart` of `main.go`. -/
def handleRestart (cfg : Config) (d : Daemon) : HandlerFunc :=
  fun w r =>
    if r.Method != "POST" then w
    else
      let w := logPrintln w "Command: RESTART"
      let (err, w) := dockerCli.ContainerRestart d cfg.ContainerName w
      match err with
      | some err => httpError (logPrintln w ("Restart error: " ++ err)) err 500
      | none => w

/-! ## `net/http`: the default serve mux and the routes `main` registers -/

/-- Go `muxEntry`: a registered pattern with its handler. -/
structure muxEntry where
  h : HandlerFunc
  pattern : String

/-- Go `ServeMux`: the entries by pattern (`m`) and those whose pattern ends in a
slash, longest first (`es`). -/
structure ServeMux where
  m : List muxEntry
  es : List muxEntry

/-- Go `ServeMux.match`: the entry with exactly this path, else the first entry of `es`
whose pattern the path starts with. -/
def ServeMux.match (mux : ServeMux) (path : String) : Option muxEntry :=
  match mux.m.find? (fun e => e.pattern == path) with
  | some e => some e
  | none => mux.es.find? (fun e => e.pattern.data.isPrefixOf path.data)

/-- A daemon that reports the container running, starts it without error, fails to
stop it with the message `boom` and fails to restart it with an empty message. -/
def sampleDaemon : Daemon :=
  { ContainerInspect := fun _ _ =>
      Except.ok { ContainerJSONBase := some { State := some { Running := true } } }
    ContainerStart := fun _ _ => none
    ContainerStop := fun _ _ => some "boom"
    ContainerRestart := fun _ _ => some "" }

/-- A daemon that cannot be reached: every call fails. -/
def downDaemon : Daemon :=
  { ContainerInspect := fun _ _ => Except.error "daemon unreachable"
    ContainerStart := fun _ _ => some "daemon unreachable"
    ContainerStop := fun _ _ => some "daemon unreachable"
    ContainerRestart := fun _ _ => some "daemon unreachable" }

/-- A daemon whose inspection succeeds with a reply that has no state object (an empty
JSON object): the client returns a response whose embedded pointer is `nil` and no
error. -/
def statelessDaemon : Daemon :=
  { ContainerInspect := fun _ _ => Except.ok { ContainerJSONBase := none }
    ContainerStart := fun _ _ => none
    ContainerStop := fun _ _ => none
    ContainerRestart := fun _ _ => none }

/-- The configuration of an empty environment without a `.env` file. -/
def defaultConfig : Config :=
  loadConfig [] []

/-- A configuration with a username and no password. -/
def halfConfig : Config :=
  { defaultConfig with AuthUser := "admin" }

/-- The world at the start of a request: nothing written, called or logged. -/
def newWorld : World :=
  { resp := ResponseWriter.fresh, calls := [], log := [], panic := none }

/-- A request without credentials. -/
def plainRequest (method path : String) : Request :=
  { Method := method, Path := path, RequestURI := path, BasicAuth := ("", "", false) }

/-- A request carrying basic credentials. -/
def authRequest (method path user pass : String) : Request :=
  { Method := method, Path := path, RequestURI := path, BasicAuth := (user, pass, true) }

/-! ## Lemmas on the library models -/

theorem httpError_body (w : World) (e : String) (code : Nat) :
    (httpError w e code).resp.body = w.resp.body ++ (e.data ++ [Char.ofNat 10]) := by
  by_cases h : w.resp.wroteHeader <;>
    simp [httpError, ResponseWriter.Write, ResponseWriter.WriteHeader, h]

theorem httpError_calls (w : World) (e : String) (code : Nat) :
    (httpError w e code).calls = w.calls ∧ (httpError w e code).log = w.log := by
  simp [httpError]

theorem basicAuth_open (cfg : Config) (next : HandlerFunc) (w : World) (r : Request)
    (h : cfg.AuthUser = "" ∨ cfg.AuthPass = "") : basicAuth cfg next w r = next w r := by
  rcases h with h | h <;> simp [basicAuth, h]

/-- C2. When `AuthUser` or `AuthPass` is empty (both, or exactly one of them),
`basicAuth` is the wrapped handler: for every `next`, writer and request, whatever
credentials the request carries, the outcome is that of `next(w, r)`, so the status
and the `WWW-Authenticate` header are those `next` produces. -/
theorem basicAuth_disabled_passthrough (cfg : Config)
    (h : cfg.AuthUser = "" ∨ cfg.AuthPass = "")
    (next : HandlerFunc) (w : World) (r : Request) :
    basicAuth cfg next w r = next w r ∧
    (basicAuth cfg next w r).resp.Code = (next w r).resp.Code ∧
    Header.Get (basicAuth cfg next w r).resp.header "WWW-Authenticate" =
      Header.Get (next w r).resp.header "WWW-Authenticate" := by
  rw [basicAuth_open cfg next w r h]
  exact ⟨rfl, rfl, rfl⟩

/-- Witness of C2: a username without a password, and a request with credentials
that match nothing. -/
theorem basicAuth_disabled_passthrough_witness :
    basicAuth halfConfig (handleStart halfConfig sampleDaemon) newWorld
        (authRequest "POST" "/start" "mallory" "guess") =
      handleStart halfConfig sampleDaemon newWorld
        (authRequest "POST" "/start" "mallory" "guess") :=
  (basicAuth_disabled_passthrough halfConfig (Or.inr rfl) _ _ _).1

/-! ## The daemon calls -/

/-- C3, at the failing input. The daemon answers the inspection of `mc-server` with
success and a response without a state object. `isContainerRunning` then returns
neither `true` nor `false`: the dereference `inspect.State.Running` panics, and the
panic leaves `handleStatus` with nothing written to the response. For an inspection
error of the unreachable daemon, by contrast, the same function returns `false`. -/
theorem isContainerRunning_panics_without_state :
    statelessDaemon.ContainerInspect [] "mc-server" = Except.ok { ContainerJSONBase := none } ∧
    (isContainerRunning defaultConfig statelessDaemon newWorld).1 = none ∧
    (handleStatus defaultConfig statelessDaemon newWorld (plainRequest "GET" "/status")).panic
      = some nilDereference ∧
    (handleStatus defaultConfig statelessDaemon newWorld (plainRequest "GET" "/status")).resp
      = ResponseWriter.fresh ∧
    (isContainerRunning defaultConfig downDaemon newWorld).1 = some false := by
  refine ⟨rfl, rfl, ?_, ?_, rfl⟩
  · simp [handleStatus, isContainerRunning, dockerCli.ContainerInspect, statelessDaemon]
  · simp [handleStatus, isContainerRunning, dockerCli.ContainerInspect, statelessDaemon, newWorld]

theorem handleStart_run (cfg : Config) (d : Daemon) (w : World) (r : Request)
    (hpost : r.Method = "POST") :
    handleStart cfg d w r =
      match d.ContainerStart w.calls cfg.ContainerName with
      | some err =>
        httpError { w with
          log := w.log ++ ["Command: START"] ++ ["Start error: " ++ err]
          calls := w.calls ++ [DaemonCall.start cfg.ContainerName] } err 500
      | none =>
        { w with
          log := w.log ++ ["Command: START"]
          calls := w.calls ++ [DaemonCall.start cfg.ContainerName] } := by
  cases h : d.ContainerStart w.calls cfg.ContainerName <;>
    simp [handleStart, hpost, dockerCli.ContainerStart, logPrintln, h]

theorem handleStop_run (cfg : Config) (d : Daemon) (w : World) (r : Request)
    (hpost : r.Method = "POST") :
    handleStop cfg d w r =
      match d.ContainerStop w.calls cfg.ContainerName with
      | some err =>
        httpError { w with
          log := w.log ++ ["Command: STOP"] ++ ["Stop error: " ++ err]
          calls := w.calls ++ [DaemonCall.stop cfg.ContainerName] } err 500
      | none =>
        { w with
          log := w.log ++ ["Command: STOP"]
          calls := w.calls ++ [DaemonCall.stop cfg.ContainerName] } := by
  cases h : d.ContainerStop w.calls cfg.ContainerName <;>
    simp [handleStop, hpost, dockerCli.ContainerStop, logPrintln, h]

theorem handleRestart_run (cfg : Config) (d : Daemon) (w : World) (r : Request)
    (hpost : r.Method = "POST") :
    handleRestart cfg d w r =
      match d.ContainerRestart w.calls cfg.ContainerName with
      | some err =>
        httpError { w with
          log := w.log ++ ["Command: RESTART"] ++ ["Restart error: " ++ err]
          calls := w.calls ++ [DaemonCall.restart cfg.ContainerName] } err 500
      | none =>
        { w with
          log := w.log ++ ["Command: RESTART"]
          calls := w.calls ++ [DaemonCall.restart cfg.ContainerName] } := by
  cases h : d.ContainerRestart w.calls cfg.ContainerName <;>
    simp [handleRestart, hpost, dockerCli.ContainerRestart, logPrintln, h]

/-- C6. On a POST request `handleStart` issues exactly one daemon call, a start of
`cfg.ContainerName`; `handleStop` exactly one, a stop of it; `handleRestart` exactly
one, a restart of it. The call is recorded by the client call itself, so the record
lists every call that reached the daemon, for a daemon whose answers may change from
call to call. The handler consults that call and no other: two daemons that answer
this one call alike leave the handler with the same outcome, whatever else they would
answer; and the outcome follows the answer, the writer untouched on success and the
error text appended on failure. After a failure the record still holds the one call:
nothing is issued again. -/
theorem control_handlers_calls (cfg : Config) (d : Daemon) (w : World) (r : Request)
    (hpost : r.Method = "POST") :
    ((handleStart cfg d w r).calls = w.calls ++ [DaemonCall.start cfg.ContainerName] ∧
      (∀ d2 : Daemon, d2.ContainerStart w.calls cfg.ContainerName =
          d.ContainerStart w.calls cfg.ContainerName →
        handleStart cfg d2 w r = handleStart cfg d w r) ∧
      (d.ContainerStart w.calls cfg.ContainerName = none →
        (handleStart cfg d w r).resp = w.resp) ∧
      (∀ e, d.ContainerStart w.calls cfg.ContainerName = some e →
        (handleStart cfg d w r).resp.body = w.resp.body ++ (e.data ++ [Char.ofNat 10]))) ∧
    ((handleStop cfg d w r).calls = w.calls ++ [DaemonCall.stop cfg.ContainerName] ∧
      (∀ d2 : Daemon, d2.ContainerStop w.calls cfg.ContainerName =
          d.ContainerStop w.calls cfg.ContainerName →
        handleStop cfg d2 w r = handleStop cfg d w r) ∧
      (d.ContainerStop w.calls cfg.ContainerName = none →
        (handleStop cfg d w r).resp = w.resp) ∧
      (∀ e, d.ContainerStop w.calls cfg.ContainerName = some e →
        (handleStop cfg d w r).resp.body = w.resp.body ++ (e.data ++ [Char.ofNat 10]))) ∧
    ((handleRestart cfg d w r).calls = w.calls ++ [DaemonCall.restart cfg.ContainerName] ∧
      (∀ d2 : Daemon, d2.ContainerRestart w.calls cfg.ContainerName =
          d.ContainerRestart w.calls cfg.ContainerName →
        handleRestart cfg d2 w r = handleRestart cfg d w r) ∧
      (d.ContainerRestart w.calls cfg.ContainerName = none →
        (handleRestart cfg d w r).resp = w.resp) ∧
      (∀ e, d.ContainerRestart w.calls cfg.ContainerName = some e →
        (handleRestart cfg d w r).resp.body = w.resp.body ++ (e.data ++ [Char.ofNat 10]))) := by
  refine ⟨⟨?_, fun d2 h2 => ?_, fun h => ?_, fun e h => ?_⟩,
    ⟨?_, fun d2 h2 => ?_, fun h => ?_, fun e h => ?_⟩,
    ⟨?_, fun d2 h2 => ?_, fun h => ?_, fun e h => ?_⟩⟩
  · rw [handleStart_run cfg d w r hpost]
    cases d.ContainerStart w.calls cfg.ContainerName <;> simp [httpError_calls]
  · rw [handleStart_run cfg d w r hpost, handleStart_run cfg d2 w r hpost, h2]
  · rw [handleStart_run cfg d w r hpost, h]
  · rw [handleStart_run cfg d w r hpost, h, httpError_body]
  · rw [handleStop_run cfg d w r hpost]
    cases d.ContainerStop w.calls cfg.ContainerName <;> simp [httpError_calls]
  · rw [handleStop_run cfg d w r hpost, handleStop_run cfg d2 w r hpost, h2]
  · rw [handleStop_run cfg d w r hpost, h]
  · rw [handleStop_run cfg d w r hpost, h, httpError_body]
  · rw [handleRestart_run cfg d w r hpost]
    cases d.ContainerRestart w.calls cfg.ContainerName <;> simp [httpError_calls]
  · rw [handleRestart_run cfg d w r hpost, handleRestart_run cfg d2 w r hpost, h2]
  · rw [handleRestart_run cfg d w r hpost, h]
  · rw [handleRestart_run cfg d w r hpost, h, httpError_body]

/-- Witness of C6: a stop that fails is issued once, and its error text is the body. -/
theorem control_handlers_calls_witness :
    (handleStop defaultConfig sampleDaemon newWorld (plainRequest "POST" "/stop")).calls =
      [DaemonCall.stop "mc-server"] ∧
    (handleStop defaultConfig sampleDaemon newWorld (plainRequest "POST" "/stop")).resp.body =
      "boom\n".data :=
  have h := (control_handlers_calls defaultConfig sampleDaemon newWorld
    (plainRequest "POST" "/stop") rfl).2.1
  ⟨h.1, h.2.2.2 "boom" rfl⟩

/-- C7. For a request whose method is not exactly `POST`, each of `handleStart`,
`handleStop` and `handleRestart` returns at once: the world is unchanged, so no daemon
call is issued, nothing is logged, no status and no body are written, and on a writer
nothing was written to the response is the implicit 200 with an empty body, whatever
the daemon would answer. -/
theorem control_handlers_method_gate (cfg : Config) (d : Daemon) (w : World) (r : Request)
    (hm : r.Method ≠ "POST") :
    handleStart cfg d w r = w ∧ handleStop cfg d w r = w ∧ handleRestart cfg d w r = w ∧
    (w.resp.wroteHeader = false →
      (handleStart cfg d w r).resp.Code = 200 ∧ (handleStop cfg d w r).resp.Code = 200 ∧
      (handleRestart cfg d w r).resp.Code = 200) := by
  have h1 : handleStart cfg d w r = w := by simp [handleStart, hm]
  have h2 : handleStop cfg d w r = w := by simp [handleStop, hm]
  have h3 : handleRestart cfg d w r = w := by simp [handleRestart, hm]
  refine ⟨h1, h2, h3, fun hw => ?_⟩
  rw [h1, h2, h3]
  simp [ResponseWriter.Code, hw]

/-- Witness of C7: a GET on the stop handler of a daemon that is down. -/
theorem control_handlers_method_gate_witness :
    handleStop defaultConfig downDaemon newWorld (plainRequest "GET" "/stop") = newWorld ∧
    (handleStop defaultConfig downDaemon newWorld (plainRequest "GET" "/stop")).resp.Code = 200 :=
  have h := control_handlers_method_gate defaultConfig downDaemon newWorld
    (plainRequest "GET" "/stop") (by decide)
  ⟨h.2.1, (h.2.2.2 rfl).2.1⟩

/-! ## Configuration -/

theorem getEnv_of_unset (env : Environ) (key fallback : String)
    (h : LookupEnv env key = none) : getEnv env key fallback = fallback := by
  simp [getEnv, h]

theorem getEnv_of_set (env : Environ) (key fallback value : String)
    (h : LookupEnv env key = some value) : getEnv env key fallback = value := by
  simp [getEnv, h]

theorem lookup_append_of_some (l1 l2 : List (String × String)) (key value : String)
    (h : l1.lookup key = some value) : (l1 ++ l2).lookup key = some value := by
  induction l1 with
  | nil => simp at h
  | cons kv rest ih =>
    obtain ⟨a, b⟩ := kv
    by_cases hk : key = a
    · subst hk
      simpa [List.lookup_cons] using h
    · have hb : (key == a) = false := by simpa using hk
      simp only [List.lookup_cons, hb, List.cons_append] at h ⊢
      exact ih h

theorem lookup_append_of_none (l1 l2 : List (String × String)) (key : String)
    (h1 : l1.lookup key = none) (h2 : l2.lookup key = none) : (l1 ++ l2).lookup key = none := by
  induction l1 with
  | nil => simpa using h2
  | cons kv rest ih =>
    obtain ⟨a, b⟩ := kv
    by_cases hk : key = a
    · subst hk
      simp [List.lookup_cons] at h1
    · have hb : (key == a) = false := by simpa using hk
      simp only [List.lookup_cons, hb, List.cons_append] at h1 ⊢
      exact ih h1

theorem lookup_filter_of_none (p : String × String → Bool) (l : List (String × String))
    (key : String) (h : l.lookup key = none) : (l.filter p).lookup key = none := by
  induction l with
  | nil => rfl
  | cons kv rest ih =>
    obtain ⟨a, b⟩ := kv
    by_cases hk : key = a
    · subst hk
      simp [List.lookup_cons] at h
    · have hb : (key == a) = false := by simpa using hk
      simp only [List.lookup_cons, hb] at h
      by_cases hp : p (a, b) = true
      · simp only [List.filter_cons, hp, if_true, List.lookup_cons, hb]
        exact ih h
      · simp only [List.filter_cons, hp, if_false]
        exact ih h

theorem godotenvLoad_keeps (envMap : List (String × String)) (env : Environ)
    (key value : String) (h : LookupEnv env key = some value) :
    LookupEnv (godotenvLoad envMap env) key = some value :=
  lookup_append_of_some env _ key value h

theorem godotenvLoad_unset (envMap : List (String × String)) (env : Environ) (key : String)
    (h1 : LookupEnv env key = none) (h2 : LookupEnv envMap key = none) :
    LookupEnv (godotenvLoad envMap env) key = none :=
  lookup_append_of_none env _ key h1 (lookup_filter_of_none _ envMap key h2)

theorem loadConfig_of_unset (envMap : List (String × String)) (env : Environ)
    (h : ∀ key ∈ ["CONTAINER_NAME", "PORT", "APP_TITLE", "AUTH_USER", "AUTH_PASS"],
      LookupEnv (godotenvLoad envMap env) key = none) :
    loadConfig envMap env =
      { ContainerName := "mc-server", Port := "8080", Title := "MINECRAFT SERVER",
        AuthUser := "", AuthPass := "" } := by
  simp only [List.mem_cons, List.mem_singleton, List.not_mem_nil, or_false, forall_eq_or_imp,
    forall_eq] at h
  obtain ⟨h1, h2, h3, h4, h5⟩ := h
  simp [loadConfig, getEnv, h1, h2, h3, h4, h5]

/-- Counterexample to C10 as stated: with `PORT=8080` in the environment the key is
present, yet `getEnv` with the fallback `8080` returns a string equal to the fallback,
so the result is the fallback although the key is not absent. Likewise `AUTH_USER` set
to the empty string yields the empty string, which is the fallback `loadConfig`
passes for it. -/
theorem getEnv_fallback_not_iff_absent :
    LookupEnv [("PORT", "8080")] "PORT" = some "8080" ∧
    getEnv [("PORT", "8080")] "PORT" "8080" = "8080" ∧
    ¬ (getEnv [("PORT", "8080")] "PORT" "8080" = "8080" ↔
        LookupEnv [("PORT", "8080")] "PORT" = none) ∧
    LookupEnv [("AUTH_USER", "")] "AUTH_USER" = some "" ∧
    getEnv [("AUTH_USER", "")] "AUTH_USER" "" = "" := by
  decide

/-- C10, amended. `getEnv` returns the variable's value whenever the key is set, also
when the value is the empty string or equals the fallback, and the fallback whenever
the key is not set; so its result is the fallback exactly when the key is absent or
set to the fallback itself, and a key set to the empty string yields the empty
string, which differs from every non-empty fallback. For `loadConfig`: when none of
the five variables is set in the process environment nor in the `.env` file (or, the
same, in the environment after `godotenv.Load`) the configuration is `mc-server`,
`8080`, `MINECRAFT SERVER` and empty `AuthUser` and `AuthPass`; when `CONTAINER_NAME`,
`PORT` or `APP_TITLE` is set to the empty string, in the process environment or after
`godotenv.Load`, the field is empty and not the default. -/
theorem getEnv_loadConfig_defaults :
    (∀ (env : Environ) (key fallback : String),
      LookupEnv env key = none → getEnv env key fallback = fallback) ∧
    (∀ (env : Environ) (key fallback value : String),
      LookupEnv env key = some value → getEnv env key fallback = value) ∧
    (∀ (env : Environ) (key fallback : String),
      getEnv env key fallback = fallback ↔
        (LookupEnv env key = none ∨ LookupEnv env key = some fallback)) ∧
    (∀ (env : Environ) (key fallback : String),
      LookupEnv env key = some "" →
        getEnv env key fallback = "" ∧ (fallback ≠ "" → getEnv env key fallback ≠ fallback)) ∧
    (∀ (envMap : List (String × String)) (env : Environ),
      (∀ key ∈ ["CONTAINER_NAME", "PORT", "APP_TITLE", "AUTH_USER", "AUTH_PASS"],
        LookupEnv env key = none ∧ LookupEnv envMap key = none) →
      loadConfig envMap env =
        { ContainerName := "mc-server", Port := "8080", Title := "MINECRAFT SERVER",
          AuthUser := "", AuthPass := "" }) ∧
    (∀ (envMap : List (String × String)) (env : Environ),
      (∀ key ∈ ["CONTAINER_NAME", "PORT", "APP_TITLE", "AUTH_USER", "AUTH_PASS"],
        LookupEnv (godotenvLoad envMap env) key = none) →
      loadConfig envMap env =
        { ContainerName := "mc-server", Port := "8080", Title := "MINECRAFT SERVER",
          AuthUser := "", AuthPass := "" }) ∧
    (∀ (envMap : List (String × String)) (env : Environ),
      (LookupEnv (godotenvLoad envMap env) "CONTAINER_NAME" = some "" →
        (loadConfig envMap env).ContainerName = "" ∧
        (loadConfig envMap env).ContainerName ≠ "mc-server") ∧
      (LookupEnv (godotenvLoad envMap env) "PORT" = some "" →
        (loadConfig envMap env).Port = "" ∧ (loadConfig envMap env).Port ≠ "8080") ∧
      (LookupEnv (godotenvLoad envMap env) "APP_TITLE" = some "" →
        (loadConfig envMap env).Title = "" ∧
        (loadConfig envMap env).Title ≠ "MINECRAFT SERVER")) ∧
    (∀ (envMap : List (String × String)) (env : Environ),
      (LookupEnv env "CONTAINER_NAME" = some "" →
        (loadConfig envMap env).ContainerName = "" ∧
        (loadConfig envMap env).ContainerName ≠ "mc-server") ∧
      (LookupEnv env "PORT" = some "" →
        (loadConfig envMap env).Port = "" ∧ (loadConfig envMap env).Port ≠ "8080") ∧
      (LookupEnv env "APP_TITLE" = some "" →
        (loadConfig envMap env).Title = "" ∧
        (loadConfig envMap env).Title ≠ "MINECRAFT SERVER")) := by
  have hmerged : ∀ (envMap : List (String × String)) (env : Environ),
      (LookupEnv (godotenvLoad envMap env) "CONTAINER_NAME" = some "" →
        (loadConfig envMap env).ContainerName = "" ∧
        (loadConfig envMap env).ContainerName ≠ "mc-server") ∧
      (LookupEnv (godotenvLoad envMap env) "PORT" = some "" →
        (loadConfig envMap env).Port = "" ∧ (loadConfig envMap env).Port ≠ "8080") ∧
      (LookupEnv (godotenvLoad envMap env) "APP_TITLE" = some "" →
        (loadConfig envMap env).Title = "" ∧
        (loadConfig envMap env).Title ≠ "MINECRAFT SERVER") := by
    intro envMap env
    refine ⟨fun h => ?_, fun h => ?_, fun h => ?_⟩
    · have : (loadConfig envMap env).ContainerName = "" := by simp [loadConfig, getEnv, h]
      exact ⟨this, by rw [this]; decide⟩
    · have : (loadConfig envMap env).Port = "" := by simp [loadConfig, getEnv, h]
      exact ⟨this, by rw [this]; decide⟩
    · have : (loadConfig envMap env).Title = "" := by simp [loadConfig, getEnv, h]
      exact ⟨this, by rw [this]; decide⟩
  refine ⟨getEnv_of_unset, getEnv_of_set, fun env key fallback => ?_,
    fun env key fallback h => ?_, fun envMap env h => ?_, loadConfig_of_unset, hmerged,
    fun envMap env => ⟨fun h => ?_, fun h => ?_, fun h => ?_⟩⟩
  · cases hv : LookupEnv env key with
    | none => simp [getEnv, hv]
    | some value =>
      rw [getEnv_of_set env key fallback value hv]
      simp
  · have h1 := getEnv_of_set env key fallback "" h
    refine ⟨h1, fun hne => ?_⟩
    rw [h1]
    exact fun h2 => hne h2.symm
  · exact loadConfig_of_unset envMap env
      (fun key hkey => godotenvLoad_unset envMap env key (h key hkey).1 (h key hkey).2)
  · exact (hmerged envMap env).1 (godotenvLoad_keeps envMap env _ _ h)
  · exact (hmerged envMap env).2.1 (godotenvLoad_keeps envMap env _ _ h)
  · exact (hmerged envMap env).2.2 (godotenvLoad_keeps envMap env _ _ h)

/-- Witness of C10, amended: the empty environment without a `.env` file gives the
defaults; `PORT` set to the empty string gives an empty port. -/
theorem getEnv_loadConfig_defaults_witness :
    loadConfig [] [] =
      { ContainerName := "mc-server", Port := "8080", Title := "MINECRAFT SERVER",
        AuthUser := "", AuthPass := "" } ∧
    (loadConfig [] [("PORT", "")]).Port = "" ∧
    getEnv [("PORT", "")] "PORT" "8080" = "" :=
  ⟨getEnv_loadConfig_defaults.2.2.2.2.1 [] [] (by decide),
   ((getEnv_loadConfig_defaults.2.2.2.2.2.2.2 [] [("PORT", "")]).2.1 (by decide)).1,
   (getEnv_loadConfig_defaults.2.2.2.1 [("PORT", "")] "PORT" "8080" (by decide)).1⟩

/-! ## The two pages -/

end MinecraftPanel
